import Mathlib

/-!
Verification development for the WA GP bulk-billing tracker
(`wa_bulk_billing_FIXED.py`, `wa_bulk_billing_STATE_AND_FEDERAL.py`,
`wa_bulk_billing_BETTER_ADDRESSES.py`).

The HTTP layer, BeautifulSoup and the CSV/JSON I/O are external
collaborators; a parsed page is modelled as a record of the texts the
source reads off the soup.  Python strings are Lean `String`s, Python
floats in the aggregation arithmetic are modelled as exact rationals
(`ℚ`) with Python's round-half-to-even decimal rounding.  The regular
expressions the source applies (`\b(\d{4})\b`, the suburb pattern
`([A-Z][A-Z\s]+)\s+WA\s+\d{4}` and the phone pattern
`\d{2}\s?\d{4}\s?\d{4}`) are embedded as executable matchers over
character lists with Python's leftmost-search, greedy-with-backtracking
semantics (digits and whitespace being disjoint, the backtracking is
deterministic at every point these patterns need it).
-/

/-- Python `pat in s` substring test: does `pat` start at the head of `s`? -/
def charsStartWith (pat : List Char) (s : List Char) : Bool :=
  match pat, s with
  | [], _ => true
  | _ :: _, [] => false
  | p :: ps, c :: cs => p == c && charsStartWith ps cs

/-- Python `pat in s` substring test over char lists. -/
def charsHasSub (pat : List Char) : List Char → Bool
  | [] => pat.isEmpty
  | c :: cs => charsStartWith pat (c :: cs) || charsHasSub pat cs

/-- Python substring membership `pat in s` on strings. -/
def pyContains (s pat : String) : Bool := charsHasSub pat.data s.data

/-- Python `str.strip()` (leading/trailing whitespace removed), computed
over the character list so that the kernel can evaluate it. -/
def pyStrip (s : String) : String :=
  String.mk (((s.data.dropWhile Char.isWhitespace).reverse.dropWhile
    Char.isWhitespace).reverse)

/-- Python `str.lower()` (ASCII case folding, all the text at hand). -/
def pyLower (s : String) : String := String.mk (s.data.map Char.toLower)

/-- The words of Python `str.split()` with no argument: maximal
whitespace-free runs, in order.  `cur` is the reversed word being read,
`acc` the reversed list of finished words. -/
def pyWordsAux (cur : List Char) (acc : List (List Char)) :
    List Char → List (List Char)
  | [] => if cur.isEmpty then acc else cur.reverse :: acc
  | c :: cs =>
    if c.isWhitespace then
      if cur.isEmpty then pyWordsAux [] acc cs
      else pyWordsAux [] (cur.reverse :: acc) cs
    else pyWordsAux (c :: cur) acc cs

/-- Python `str.split()` with no argument. -/
def pySplitWs (s : String) : List String :=
  ((pyWordsAux [] [] s.data).reverse).map String.mk

/-- Join word lists with single spaces. -/
def joinWordChars : List (List Char) → List Char
  | [] => []
  | w :: ws =>
    match ws with
    | [] => w
    | _ :: _ => w ++ ' ' :: joinWordChars ws

/-- The source's whitespace collapsing `' '.join(text.split())`. -/
def collapseWs (s : String) : String :=
  String.mk (joinWordChars ((pyWordsAux [] [] s.data).reverse))

/-- Python `\w` word character (ASCII approximation used by the
addresses at hand). -/
def isWordChar (c : Char) : Bool := c.isAlphanum || c == '_'

/-- Match of `\b(\d{4})\b` starting exactly at the head of the list,
`prev` being the character before that position (`none` at the start of
the string). -/
def pcMatchAt (prev : Option Char) (cs : List Char) : Option String :=
  match cs with
  | c1 :: c2 :: c3 :: c4 :: rest =>
    if c1.isDigit && c2.isDigit && c3.isDigit && c4.isDigit
        && (match prev with | none => true | some p => !(isWordChar p))
        && (match rest with | [] => true | r :: _ => !(isWordChar r)) then
      some (String.mk [c1, c2, c3, c4])
    else none
  | _ => none

/-- Leftmost scan for `\b(\d{4})\b`. -/
def findPostcodeAux (prev : Option Char) : List Char → Option String
  | [] => none
  | c :: rest =>
    match pcMatchAt prev (c :: rest) with
    | some m => some m
    | none => findPostcodeAux (some c) rest

/-- Group 1 of `re.search(r'\b(\d{4})\b', s)`: the first word-bounded
4-digit run. -/
def findPostcode (s : String) : Option String := findPostcodeAux none s.data

/-- Character class `[A-Z]`. -/
def isUpperAZ (c : Char) : Bool := 'A' ≤ c && c ≤ 'Z'

/-- Character class `[A-Z\s]` of the suburb pattern. -/
def isUpperOrWs (c : Char) : Bool := isUpperAZ c || c.isWhitespace

/-- Does `\s+WA\s+\d{4}` match at the head of `cs`?  The `\s+` runs are
maximal: `W` and digits are not whitespace, so no shorter run can
succeed where the maximal one fails. -/
def suburbTailMatch (cs : List Char) : Bool :=
  match cs with
  | [] => false
  | c :: rest =>
    if !c.isWhitespace then false
    else
      match rest.dropWhile Char.isWhitespace with
      | 'W' :: 'A' :: rest2 =>
        match rest2 with
        | [] => false
        | d :: rest3 =>
          d.isWhitespace &&
            (match rest3.dropWhile Char.isWhitespace with
             | a :: b :: c3 :: d4 :: _ =>
               a.isDigit && b.isDigit && c3.isDigit && d4.isDigit
             | _ => false)
      | _ => false

/-- Greedy backtracking over the length of the `[A-Z\s]+` part of the
suburb group: try the longest class run first, shrinking until the tail
`\s+WA\s+\d{4}` matches.  Returns the raw group-1 text. -/
def suburbTryLens (c : Char) (rest : List Char) : Nat → Option String
  | 0 => none
  | Nat.succ k =>
    if suburbTailMatch (rest.drop (k + 1)) then
      some (String.mk (c :: rest.take (k + 1)))
    else suburbTryLens c rest k

/-- Match of `([A-Z][A-Z\s]+)\s+WA\s+\d{4}` starting at the head of the
list; returns the raw group-1 text. -/
def suburbMatchAt (cs : List Char) : Option String :=
  match cs with
  | [] => none
  | c :: rest =>
    if isUpperAZ c then
      suburbTryLens c rest ((rest.takeWhile isUpperOrWs).length)
    else none

/-- Leftmost scan for the suburb pattern. -/
def findSuburbAux : List Char → Option String
  | [] => none
  | c :: rest =>
    match suburbMatchAt (c :: rest) with
    | some g => some g
    | none => findSuburbAux rest

/-- Group 1 of `re.search(r'([A-Z][A-Z\s]+)\s+WA\s+\d{4}', s)` (not yet
stripped; the callers apply `.strip()`). -/
def findSuburb (s : String) : Option String := findSuburbAux s.data

/-- Consume exactly `n` digits, returning them and the rest. -/
def takeDigits : Nat → List Char → Option (List Char × List Char)
  | 0, cs => some ([], cs)
  | Nat.succ _, [] => none
  | Nat.succ n, c :: cs =>
    if c.isDigit then
      match takeDigits n cs with
      | some (ds, rest) => some (c :: ds, rest)
      | none => none
    else none

/-- Greedy `\s?`: consume one whitespace character when present.  A
digit must follow in the phone pattern, so when the head is whitespace
the branch that skips it cannot succeed and the choice is
deterministic. -/
def optOneWs (cs : List Char) : List Char × List Char :=
  match cs with
  | c :: rest => if c.isWhitespace then ([c], rest) else ([], cs)
  | [] => ([], cs)

/-- Match of `\d{2}\s?\d{4}\s?\d{4}` starting at the head of the list;
returns the matched text. -/
def phoneMatchAt (cs : List Char) : Option String :=
  match takeDigits 2 cs with
  | none => none
  | some (d1, r1) =>
    let w1 := optOneWs r1
    match takeDigits 4 w1.2 with
    | none => none
    | some (d2, r2) =>
      let w2 := optOneWs r2
      match takeDigits 4 w2.2 with
      | none => none
      | some (d3, _) => some (String.mk (d1 ++ w1.1 ++ d2 ++ w2.1 ++ d3))

/-- Leftmost scan for the phone pattern. -/
def findPhoneAux : List Char → Option String
  | [] => none
  | c :: rest =>
    match phoneMatchAt (c :: rest) with
    | some m => some m
    | none => findPhoneAux rest

/-- Group 1 of `re.search(r'(\d{2}\s?\d{4}\s?\d{4})', s)`. -/
def findPhone (s : String) : Option String := findPhoneAux s.data

/-- The BETTER_ADDRESSES phone search
`re.search(r'(?:Phone[:\s]*)?(\d{2}\s?\d{4}\s?\d{4})', s)` group 1 at
one position: an optional greedy literal `Phone` plus a maximal
`[:\s]*` run may precede the digits (digits are in neither part, so
backtracking inside the optional prefix is deterministic). -/
def phoneMatchAtB (cs : List Char) : Option String :=
  if charsStartWith "Phone".data cs then
    match phoneMatchAt ((cs.drop 5).dropWhile (fun c => c == ':' || c.isWhitespace)) with
    | some m => some m
    | none => phoneMatchAt cs
  else phoneMatchAt cs

/-- Leftmost scan for the prefixed phone pattern. -/
def findPhoneAuxB : List Char → Option String
  | [] => none
  | c :: rest =>
    match phoneMatchAtB (c :: rest) with
    | some m => some m
    | none => findPhoneAuxB rest

/-- Group 1 of the BETTER_ADDRESSES phone search over a string. -/
def findPhoneB (s : String) : Option String := findPhoneAuxB s.data

/-- One row of the state lookup table: the dict
`{'electorate': ..., 'suburb': ...}` appended by `load_state_mapping`. -/
structure SEntry where
  electorate : String
  suburb : String
deriving DecidableEq

/-- The state table `self.state_mapping`: postcode keyed, insertion
ordered, each key holding the ordered rows appended for it. -/
def StateTable := List (String × List SEntry)

/-- The federal table `self.federal_mapping`: composite key
`postcode_suburb` to district, exact lookup only. -/
def FederalTable := List (String × String)

/-- The resolver `get_state_electorate` of the dual-axis scripts (identical to
`get_electorate_from_postcode_suburb` of the FIXED script).  `none`
models the `IndexError` Python would raise on an empty entry list, a
state no loaded table produces. -/
def get_state_electorate (tbl : StateTable) (postcode suburb : String) :
    Option String :=
  match tbl.find? (fun p => p.1 == postcode) with
  | none => some "Unknown"
  | some pr =>
    match pr.2.find? (fun e => pyStrip (pyLower e.suburb) == pyStrip (pyLower suburb)) with
    | some e => some e.electorate
    | none => pr.2.head?.map (fun e => e.electorate)

/-- The resolver `get_federal_electorate`: exact composite-key lookup, default
`"Unknown"`. -/
def get_federal_electorate (fed : FederalTable) (postcode suburb : String) :
    String :=
  match fed.find? (fun p => p.1 == postcode ++ "_" ++ pyStrip (pyLower suburb)) with
  | some p => p.2
  | none => "Unknown"

/-- The inline billing-classification block of `get_clinic_details`
(identical in all three scripts); `page_text` is the already lowercased
page text. -/
def classify_billing (page_text : String) : Bool × String :=
  if pyContains page_text "bulk billing only" then (true, "100% Bulk Billed")
  else if pyContains page_text "100% bulk bill" || pyContains page_text "fully bulk billed" then
    (true, "100% Bulk Billed")
  else if pyContains page_text "bulk bills all patients" then (true, "100% Bulk Billed")
  else if pyContains page_text "mixed billing" then (false, "Mixed Billing")
  else if pyContains page_text "fees apply" || pyContains page_text "private billing" then
    (false, "Private Billing")
  else (false, "Unknown")

/-- One clinic record, the dict built by `get_clinic_details` of the
dual-axis scripts (`last_checked` is the timestamp string the caller's
clock produced, passed in as a parameter). -/
structure ClinicRecord where
  name : String
  address : String
  suburb : String
  postcode : String
  state_electorate : String
  federal_electorate : String
  phone : String
  url : String
  is_bulk_billed : Bool
  billing_status : String
  last_checked : String
deriving DecidableEq

namespace StateFederal

/-- The texts `get_clinic_details` of wa_bulk_billing_STATE_AND_FEDERAL.py
reads off the parsed page: `headingText` is `get_text(strip=True)` of
the first `h1` (else `h2`) element, `addressText` the same for the
`<address>` element, `telText` the same for the first anchor with a
`tel:` href, and `pageText` is `soup.get_text()`. -/
structure Page where
  headingText : Option String
  addressText : Option String
  telText : Option String
  pageText : String
deriving DecidableEq

/-- The builder `get_clinic_details` of wa_bulk_billing_STATE_AND_FEDERAL.py: the
record built for one successfully fetched clinic page.  `state_elect`
is the `state_electorate` argument forwarded from the search loop,
`now` the timestamp string. -/
def get_clinic_details (fed : FederalTable) (url search_postcode search_suburb
    state_elect : String) (now : String) (page : Page) : ClinicRecord :=
  let clinic_name := page.headingText.getD "Unknown"
  let address_text := page.addressText.getD ""
  let postcode :=
    if address_text != "" then
      match findPostcode address_text with
      | some pc => pc
      | none => search_postcode
    else search_postcode
  let suburb :=
    if address_text != "" then
      match findSuburb address_text with
      | some g => pyStrip g
      | none => search_suburb
    else search_suburb
  let federal_electorate := get_federal_electorate fed postcode suburb
  let phone :=
    match page.telText with
    | some t => t
    | none => "N/A"
  let page_text := pyLower page.pageText
  let bb := classify_billing page_text
  { name := clinic_name
    address := if address_text != "" then address_text else "Unknown"
    suburb := suburb
    postcode := postcode
    state_electorate := state_elect
    federal_electorate := federal_electorate
    phone := phone
    url := url
    is_bulk_billed := bb.1
    billing_status := bb.2
    last_checked := now }

end StateFederal

namespace BetterAddresses

/-- The pieces `extract_address_better` and `get_clinic_details` of
wa_bulk_billing_BETTER_ADDRESSES.py read off the parsed page.  The
fields of the extraction cascade hold the outputs of the BeautifulSoup
and `re` library calls the source makes, in page order:

* `addressTagText`: `get_text(strip=True)` of the `<address>` element;
* `blockMatch`: `get_text(strip=True)` of the first `p`/`div`/`span`
  element whose text the Method-2 street-pattern regex search accepts;
* `directionsMatch`: group 1 of the Method-3 regex searched in the text
  of the container of a directions-style link, when that link, its
  container and the match all exist;
* `ldAddresses`: the `(streetAddress, addressLocality, addressRegion,
  postalCode)` tuples of the `address` objects of the parseable
  `ld+json` script blocks, in order (missing keys as `""`);
* `wholeTextMatches`: the `re.findall` results of the Method-5 pattern
  over `soup.get_text()`, in order.

`headingText`, `telText` and `pageText` are as in the other scripts. -/
structure Page where
  headingText : Option String
  addressTagText : Option String
  blockMatch : Option String
  directionsMatch : Option String
  ldAddresses : List (String × String × String × String)
  wholeTextMatches : List String
  telText : Option String
  pageText : String
deriving DecidableEq

/-- Method 1: the `<address>` tag text, whitespace collapsed, accepted
only when longer than 10 characters and containing `"WA"`. -/
def method1 (page : Page) : Option String :=
  match page.addressTagText with
  | none => none
  | some t =>
    let t2 := collapseWs t
    if t2.length > 10 && pyContains t2 "WA" then some t2 else none

/-- Method 2: the first street-pattern block text, whitespace
collapsed. -/
def method2 (page : Page) : Option String :=
  page.blockMatch.map collapseWs

/-- Method 3: the directions-link container match, stripped. -/
def method3 (page : Page) : Option String :=
  page.directionsMatch.map pyStrip

/-- Method 4: the first structured-data address with a non-empty street
and locality, synthesized as `"{street}, {locality} {region} {postal}"`
and stripped. -/
def method4 : List (String × String × String × String) → Option String
  | [] => none
  | (street, locality, region, postal) :: rest =>
    if street != "" && locality != "" then
      some (pyStrip (street ++ ", " ++ locality ++ " " ++ region ++ " " ++ postal))
    else method4 rest

/-- The street-type keywords of Method 5's plausibility filter. -/
def method5Keywords : List String :=
  ["street", "st", "road", "rd", "avenue", "ave", "drive", "dr"]

/-- Method 5: the first whole-page match that, stripped, is longer than
15 characters and contains a street-type keyword in lowercase;
whitespace collapsed. -/
def method5 : List String → Option String
  | [] => none
  | m :: rest =>
    let m2 := pyStrip m
    if m2.length > 15 && method5Keywords.any (fun k => pyContains (pyLower m2) k) then
      some (collapseWs m2)
    else method5 rest

/-- The cascade `extract_address_better`: ordered, first success wins;
`none` when all five methods fail. -/
def extract_address_better (page : Page) : Option String :=
  match method1 page with
  | some a => some a
  | none =>
    match method2 page with
    | some a => some a
    | none =>
      match method3 page with
      | some a => some a
      | none =>
        match method4 page.ldAddresses with
        | some a => some a
        | none => method5 page.wholeTextMatches

/-- The builder `get_clinic_details` of wa_bulk_billing_BETTER_ADDRESSES.py. -/
def get_clinic_details (fed : FederalTable) (url search_postcode search_suburb
    state_elect : String) (now : String) (page : Page) : ClinicRecord :=
  let clinic_name := page.headingText.getD "Unknown"
  let address0 := (extract_address_better page).getD ""
  let postcode :=
    if address0 != "" then
      match findPostcode address0 with
      | some pc => pc
      | none => search_postcode
    else search_postcode
  let suburb :=
    if address0 != "" then
      match findSuburb address0 with
      | some g => pyStrip g
      | none => search_suburb
    else search_suburb
  let address_text :=
    if address0 != "" then address0
    else search_suburb ++ ", WA " ++ search_postcode
  let federal_electorate := get_federal_electorate fed postcode suburb
  let phone :=
    match page.telText with
    | some t => t
    | none =>
      match findPhoneB page.pageText with
      | some m => m
      | none => "N/A"
  let page_text := pyLower page.pageText
  let bb := classify_billing page_text
  { name := clinic_name
    address := address_text
    suburb := suburb
    postcode := postcode
    state_electorate := state_elect
    federal_electorate := federal_electorate
    phone := phone
    url := url
    is_bulk_billed := bb.1
    billing_status := bb.2
    last_checked := now }

end BetterAddresses

/-- One clinic record of the FIXED script: its dict carries a single
`electorate` field instead of the state/federal pair. -/
structure FixedClinicRecord where
  name : String
  address : String
  suburb : String
  postcode : String
  electorate : String
  phone : String
  url : String
  is_bulk_billed : Bool
  billing_status : String
  last_checked : String
deriving DecidableEq

namespace Fixed

/-- The texts `get_clinic_details` of wa_bulk_billing_FIXED.py reads
off the parsed page: as in the other scripts, plus `blockTexts`, the
`get_text()` outputs (not stripped) of the `p`/`div` elements in page
order, which feed the address fallback loop. -/
structure Page where
  headingText : Option String
  addressText : Option String
  blockTexts : List String
  telText : Option String
  pageText : String
deriving DecidableEq

/-- The address fallback loop of the FIXED builder: the first
`p`/`div` text containing "WA" and at least one digit, stripped; the
empty string when no element matches. -/
def address_fallback : List String → String
  | [] => ""
  | t :: rest =>
    if pyContains t "WA" && t.data.any Char.isDigit then pyStrip t
    else address_fallback rest

/-- The builder `get_clinic_details` of wa_bulk_billing_FIXED.py. -/
def get_clinic_details (url search_postcode search_suburb electorate
    now : String) (page : Page) : FixedClinicRecord :=
  let clinic_name := page.headingText.getD "Unknown"
  let address_text :=
    match page.addressText with
    | some t => t
    | none => address_fallback page.blockTexts
  let postcode :=
    if address_text != "" then
      match findPostcode address_text with
      | some pc => pc
      | none => search_postcode
    else search_postcode
  let suburb :=
    if address_text != "" then
      match findSuburb address_text with
      | some g => pyStrip g
      | none => search_suburb
    else search_suburb
  let phone :=
    match page.telText with
    | some t => t
    | none =>
      match findPhone page.pageText with
      | some m => m
      | none => "N/A"
  let page_text := pyLower page.pageText
  let bb := classify_billing page_text
  { name := clinic_name
    address := if address_text != "" then address_text else "Unknown"
    suburb := suburb
    postcode := postcode
    electorate := electorate
    phone := phone
    url := url
    is_bulk_billed := bb.1
    billing_status := bb.2
    last_checked := now }

end Fixed

/-- The duplicate-removal loop of `save_results`: a dict keyed by
`clinic['url']` keeps the first record seen per url, and
`list(unique_results.values())` returns the kept records in first-seen
order (Python dicts preserve insertion order).  `seen` accumulates the
urls already kept. -/
def removeDuplicatesAux (seen : List String) : List ClinicRecord → List ClinicRecord
  | [] => []
  | c :: rest =>
    if seen.contains c.url then removeDuplicatesAux seen rest
    else c :: removeDuplicatesAux (c.url :: seen) rest

/-- Duplicate removal of `save_results`. -/
def remove_duplicates (results : List ClinicRecord) : List ClinicRecord :=
  removeDuplicatesAux [] results

/-- Python's `round(q, 1)` on exact rational values: round to the
nearest multiple of one tenth, ties to even. -/
def pyRound1 (q : ℚ) : ℚ :=
  let s : ℚ := q * 10
  let fl : ℤ := ⌊s⌋
  let frac : ℚ := s - (fl : ℚ)
  let n : ℤ :=
    if frac < 1 / 2 then fl
    else if 1 / 2 < frac then fl + 1
    else if fl % 2 = 0 then fl else fl + 1
  (n : ℚ) / 10

/-- The per-district statistics entry of `save_results` for one state
electorate: `none` when no (deduplicated) record carries that
electorate, i.e. when the `defaultdict` grew no bucket for it;
otherwise `(total_clinics, bulk_billed_clinics, percentage)` with the
percentage over exact rationals. -/
def state_stats (results : List ClinicRecord) (electorate : String) :
    Option (Nat × Nat × ℚ) :=
  let clinics := results.filter (fun c => c.state_electorate == electorate)
  match clinics with
  | [] => none
  | _ =>
    let bulk_billed := clinics.filter (fun c => c.is_bulk_billed)
    some (clinics.length, bulk_billed.length,
      pyRound1 ((bulk_billed.length : ℚ) / (clinics.length : ℚ) * 100))

/-- The per-district statistics entry of `save_results` for one federal
electorate. -/
def federal_stats (results : List ClinicRecord) (electorate : String) :
    Option (Nat × Nat × ℚ) :=
  let clinics := results.filter (fun c => c.federal_electorate == electorate)
  match clinics with
  | [] => none
  | _ =>
    let bulk_billed := clinics.filter (fun c => c.is_bulk_billed)
    some (clinics.length, bulk_billed.length,
      pyRound1 ((bulk_billed.length : ℚ) / (clinics.length : ℚ) * 100))

/-- The `summary` object of the saved output. -/
structure RunSummary where
  total_clinics : Nat
  bulk_billed_clinics : Nat
  state_electorates_covered : Nat
  federal_electorates_covered : Nat
deriving DecidableEq

/-- The global summary of `save_results` over the deduplicated record
list: record count, bulk-billed count, and the numbers of distinct
state and federal electorates (the key counts of the two
`defaultdict` groupings). -/
def run_summary (results : List ClinicRecord) : RunSummary :=
  { total_clinics := results.length
    bulk_billed_clinics := (results.filter (fun c => c.is_bulk_billed)).length
    state_electorates_covered := ((results.map (fun c => c.state_electorate)).dedup).length
    federal_electorates_covered := ((results.map (fun c => c.federal_electorate)).dedup).length }

/-- C10: the two classifier outputs are linked: the bulk-billed flag is
true exactly when the billing status is the "100% Bulk Billed"
(FullyBulkBilled) outcome; every other outcome carries a false flag. -/
theorem c10_flag_iff_fully_bulk_billed (t : String) :
    (classify_billing t).1 = true ↔ (classify_billing t).2 = "100% Bulk Billed" := by
  unfold classify_billing
  split_ifs <;> decide

/-- C5: the keyword rules are applied in fixed priority order with first
match winning: a text containing both "mixed billing" and "fees apply"
but none of the full-bulk-billing phrases classifies as
(false, Mixed Billing) and not Private Billing, and any text containing
"bulk billing only" classifies as (true, 100% Bulk Billed) regardless
of the other keywords. -/
theorem c5_classifier_priority (t : String) :
    (pyContains t "bulk billing only" = false →
     pyContains t "100% bulk bill" = false →
     pyContains t "fully bulk billed" = false →
     pyContains t "bulk bills all patients" = false →
     pyContains t "mixed billing" = true →
     pyContains t "fees apply" = true →
     classify_billing t = (false, "Mixed Billing")) ∧
    (pyContains t "bulk billing only" = true →
     classify_billing t = (true, "100% Bulk Billed")) := by
  constructor
  · intro h1 h2 h3 h4 h5 h6
    unfold classify_billing
    simp [h1, h2, h3, h4, h5, h6]
  · intro h
    unfold classify_billing
    simp [h]

/-- Concrete instantiation of `c5_classifier_priority`. -/
theorem c5_classifier_priority_witness :
    classify_billing "mixed billing - fees apply for some services"
      = (false, "Mixed Billing") ∧
    classify_billing "bulk billing only, though fees apply after hours"
      = (true, "100% Bulk Billed") :=
  ⟨(c5_classifier_priority "mixed billing - fees apply for some services").1
      (by decide) (by decide) (by decide) (by decide) (by decide) (by decide),
   (c5_classifier_priority "bulk billing only, though fees apply after hours").2
      (by decide)⟩

/-- C2: `get_state_electorate` returns "Unknown" when the postcode is
absent from the state table; when present it returns the district of
the first entry whose lower-cased, trimmed suburb equals the
lower-cased, trimmed query suburb; and when no entry matches it falls
back to the district of the first entry of that postcode's list. -/
theorem c2_resolve_state (tbl : StateTable) (pc sub : String) :
    (tbl.find? (fun p => p.1 == pc) = none →
      get_state_electorate tbl pc sub = some "Unknown") ∧
    (∀ pr e, tbl.find? (fun p => p.1 == pc) = some pr →
      pr.2.find? (fun e2 => pyStrip (pyLower e2.suburb) == pyStrip (pyLower sub)) = some e →
      get_state_electorate tbl pc sub = some e.electorate) ∧
    (∀ pr e0 rest, tbl.find? (fun p => p.1 == pc) = some pr →
      pr.2 = e0 :: rest →
      (∀ e2 ∈ pr.2, (pyStrip (pyLower e2.suburb) == pyStrip (pyLower sub)) = false) →
      get_state_electorate tbl pc sub = some e0.electorate) := by
  refine ⟨?_, ?_, ?_⟩
  · intro h
    unfold get_state_electorate
    rw [h]
  · intro pr e hpr he
    unfold get_state_electorate
    rw [hpr]
    dsimp only
    rw [he]
  · intro pr e0 rest hpr hcons hnone
    have hfind : pr.2.find?
        (fun e2 => pyStrip (pyLower e2.suburb) == pyStrip (pyLower sub)) = none := by
      rw [List.find?_eq_none]
      intro a ha
      simp [hnone a ha]
    unfold get_state_electorate
    rw [hpr]
    dsimp only
    rw [hfind, hcons]
    rfl

/-- Concrete instantiation of `c2_resolve_state`: an absent postcode, a
matching suburb (second entry), and the first-entry fallback. -/
theorem c2_resolve_state_witness :
    get_state_electorate [("6000", [⟨"DistA", "Perth"⟩, ⟨"DistB", "Northbridge"⟩])]
      "6100" "Perth" = some "Unknown" ∧
    get_state_electorate [("6000", [⟨"DistA", "Perth"⟩, ⟨"DistB", "Northbridge"⟩])]
      "6000" " NORTHBRIDGE " = some "DistB" ∧
    get_state_electorate [("6000", [⟨"DistA", "Perth"⟩, ⟨"DistB", "Northbridge"⟩])]
      "6000" "Subiaco" = some "DistA" :=
  ⟨(c2_resolve_state _ "6100" "Perth").1 (by decide),
   (c2_resolve_state _ "6000" " NORTHBRIDGE ").2.1
      ("6000", [⟨"DistA", "Perth"⟩, ⟨"DistB", "Northbridge"⟩])
      ⟨"DistB", "Northbridge"⟩ (by decide) (by decide),
   (c2_resolve_state _ "6000" "Subiaco").2.2
      ("6000", [⟨"DistA", "Perth"⟩, ⟨"DistB", "Northbridge"⟩])
      ⟨"DistA", "Perth"⟩ [⟨"DistB", "Northbridge"⟩] (by decide) rfl (by decide)⟩

/-- A minimal clinic record for concrete aggregation checks. -/
def sampleRec (d : String) (bb : Bool) (u : String) : ClinicRecord :=
  { name := "Clinic " ++ u
    address := "1 Test St, PERTH WA 6000"
    suburb := "PERTH"
    postcode := "6000"
    state_electorate := d
    federal_electorate := "FedOf " ++ d
    phone := "08 9300 1234"
    url := u
    is_bulk_billed := bb
    billing_status := if bb then "100% Bulk Billed" else "Unknown"
    last_checked := "2025-01-01 00:00:00" }

/-- Seven records in district "Perth", three of them bulk billed, plus
one record in another district. -/
def sampleSeven : List ClinicRecord :=
  [sampleRec "Perth" true "u1", sampleRec "Perth" true "u2",
   sampleRec "Perth" true "u3", sampleRec "Perth" false "u4",
   sampleRec "Perth" false "u5", sampleRec "Perth" false "u6",
   sampleRec "Perth" false "u7", sampleRec "Fremantle" true "u8"]

/-- C4: every district bucket of the aggregated report carries the
bucket's record count as `total`, its bulk-billed record count as
`bulk_billed_count`, a positive total (buckets exist only for non-empty
groups), and the percentage `round(bulk_billed / total * 100, 1)`
computed over exact rationals; a bucket with `total = 7` and
`bulk_billed = 3` has percentage `42.9`. -/
theorem c4_bucket_stats (results : List ClinicRecord) (d : String)
    (t b : Nat) (p : ℚ) :
    (state_stats results d = some (t, b, p) →
      t = (results.filter (fun c => c.state_electorate == d)).length ∧
      b = ((results.filter (fun c => c.state_electorate == d)).filter
            (fun c => c.is_bulk_billed)).length ∧
      0 < t ∧
      p = pyRound1 ((b : ℚ) / (t : ℚ) * 100) ∧
      (t = 7 → b = 3 → p = 429 / 10)) ∧
    (federal_stats results d = some (t, b, p) →
      t = (results.filter (fun c => c.federal_electorate == d)).length ∧
      b = ((results.filter (fun c => c.federal_electorate == d)).filter
            (fun c => c.is_bulk_billed)).length ∧
      0 < t ∧
      p = pyRound1 ((b : ℚ) / (t : ℚ) * 100) ∧
      (t = 7 → b = 3 → p = 429 / 10)) := by
  constructor
  · intro h
    unfold state_stats at h
    cases hcl : results.filter (fun c => c.state_electorate == d) with
    | nil =>
      rw [hcl] at h
      exact absurd h (by simp)
    | cons x xs =>
      rw [hcl] at h
      simp only [Option.some.injEq, Prod.mk.injEq] at h
      obtain ⟨ht, hb, hp⟩ := h
      subst ht hb
      refine ⟨rfl, rfl, by simp, hp.symm, ?_⟩
      intro h7 h3
      rw [← hp, h7, h3]
      norm_num [pyRound1]
  · intro h
    unfold federal_stats at h
    cases hcl : results.filter (fun c => c.federal_electorate == d) with
    | nil =>
      rw [hcl] at h
      exact absurd h (by simp)
    | cons x xs =>
      rw [hcl] at h
      simp only [Option.some.injEq, Prod.mk.injEq] at h
      obtain ⟨ht, hb, hp⟩ := h
      subst ht hb
      refine ⟨rfl, rfl, by simp, hp.symm, ?_⟩
      intro h7 h3
      rw [← hp, h7, h3]
      norm_num [pyRound1]

/-- Concrete instantiation of `c4_bucket_stats` on `sampleSeven`, on
both axes: the state bucket "Perth" and the federal bucket
"FedOf Perth" each hold 7 records, 3 of them bulk billed, and their
percentage is exactly 42.9. -/
theorem c4_bucket_stats_witness :
    state_stats sampleSeven "Perth" = some (7, 3, 429 / 10) ∧
    federal_stats sampleSeven "FedOf Perth" = some (7, 3, 429 / 10) ∧
    (7 : Nat) = (sampleSeven.filter (fun c => c.state_electorate == "Perth")).length ∧
    (7 : Nat) = (sampleSeven.filter
        (fun c => c.federal_electorate == "FedOf Perth")).length ∧
    0 < (7 : Nat) := by
  have hf : List.filter (fun c => c.state_electorate == "Perth") sampleSeven
      = [sampleRec "Perth" true "u1", sampleRec "Perth" true "u2",
         sampleRec "Perth" true "u3", sampleRec "Perth" false "u4",
         sampleRec "Perth" false "u5", sampleRec "Perth" false "u6",
         sampleRec "Perth" false "u7"] := by decide
  have hf2 : List.filter (fun c => c.federal_electorate == "FedOf Perth") sampleSeven
      = [sampleRec "Perth" true "u1", sampleRec "Perth" true "u2",
         sampleRec "Perth" true "u3", sampleRec "Perth" false "u4",
         sampleRec "Perth" false "u5", sampleRec "Perth" false "u6",
         sampleRec "Perth" false "u7"] := by decide
  have hg : List.filter (fun c => c.is_bulk_billed)
      [sampleRec "Perth" true "u1", sampleRec "Perth" true "u2",
       sampleRec "Perth" true "u3", sampleRec "Perth" false "u4",
       sampleRec "Perth" false "u5", sampleRec "Perth" false "u6",
       sampleRec "Perth" false "u7"]
      = [sampleRec "Perth" true "u1", sampleRec "Perth" true "u2",
         sampleRec "Perth" true "u3"] := by decide
  have h : state_stats sampleSeven "Perth" = some (7, 3, 429 / 10) := by
    unfold state_stats
    rw [hf]
    dsimp only
    rw [hg]
    norm_num [pyRound1]
  have h2 : federal_stats sampleSeven "FedOf Perth" = some (7, 3, 429 / 10) := by
    unfold federal_stats
    rw [hf2]
    dsimp only
    rw [hg]
    norm_num [pyRound1]
  have hs := (c4_bucket_stats sampleSeven "Perth" 7 3 (429 / 10)).1 h
  have hfed := (c4_bucket_stats sampleSeven "FedOf Perth" 7 3 (429 / 10)).2 h2
  exact ⟨h, h2, hs.1, hfed.1, hs.2.2.1⟩

/-- C6: whenever the dedicated address element's text, whitespace
collapsed, is longer than the minimum length (10) and contains the
region token "WA", the extractor returns exactly that Method-1 text,
whatever the inputs of the four later methods are — it does not fall
through to them. -/
theorem c6_method1_short_circuits (page : BetterAddresses.Page) (t : String)
    (h1 : page.addressTagText = some t)
    (h2 : (collapseWs t).length > 10)
    (h3 : pyContains (collapseWs t) "WA" = true) :
    BetterAddresses.extract_address_better page = some (collapseWs t) := by
  have hm1 : BetterAddresses.method1 page = some (collapseWs t) := by
    unfold BetterAddresses.method1
    rw [h1]
    dsimp only
    simp [h2, h3]
  unfold BetterAddresses.extract_address_better
  rw [hm1]

/-- Concrete instantiation of `c6_method1_short_circuits`: a page whose
later-method inputs would all produce different addresses still yields
the Method-1 text. -/
theorem c6_method1_short_circuits_witness :
    BetterAddresses.extract_address_better
      { headingText := some "City Medical"
        addressTagText := some "  12  Main   Street, PERTH WA 6000 "
        blockMatch := some "999 Other Road, SUBIACO WA 6008"
        directionsMatch := some "3 Wrong Lane, COMO WA 6152"
        ldAddresses := [("7 Ld Street", "Bentley", "WA", "6102")]
        wholeTextMatches := ["visit 55 Fallback Avenue CARINE WA 6020"]
        telText := none
        pageText := "" }
      = some "12 Main Street, PERTH WA 6000" :=
  c6_method1_short_circuits _ "  12  Main   Street, PERTH WA 6000 "
    rfl (by decide) (by decide)

/-- C7: when the extraction cascade fails on all five methods and
signals absence, the record built for the page carries the synthetic
placeholder address composed from the search suburb and postcode. -/
theorem c7_synthetic_placeholder (fed : FederalTable)
    (url search_postcode search_suburb state_elect now : String)
    (page : BetterAddresses.Page)
    (h : BetterAddresses.extract_address_better page = none) :
    (BetterAddresses.get_clinic_details fed url search_postcode search_suburb
        state_elect now page).address
      = search_suburb ++ ", WA " ++ search_postcode := by
  unfold BetterAddresses.get_clinic_details
  rw [h]
  rfl

/-- Concrete instantiation of `c7_synthetic_placeholder`: a page on
which every method fails produces the placeholder
"Riverton, WA 6148". -/
theorem c7_synthetic_placeholder_witness :
    (BetterAddresses.get_clinic_details [] "u" "6148" "Riverton" "Riverton"
        "2025-01-01"
        { headingText := some "City Medical"
          addressTagText := some " short "
          blockMatch := none
          directionsMatch := none
          ldAddresses := [("", "Bentley", "WA", "6102")]
          wholeTextMatches := ["1 Ave WA 6000", "no digits here"]
          telText := none
          pageText := "" }).address
      = "Riverton, WA 6148" :=
  c7_synthetic_placeholder [] "u" "6148" "Riverton" "Riverton" "2025-01-01" _
    (by decide)

/-- C1 as stated is false: the record builder re-resolves only the
federal axis from the re-derived suburb/postcode; the state electorate
stored in the record is the search query's district, taken verbatim.
Here the page's address re-derives to postcode "6000" and suburb
"PERTH", the state resolver maps those to "Perth", yet the record
carries the search district "Riverton". -/
theorem c1_counterexample :
    let tbl : StateTable := [("6000", [⟨"Perth", "Perth"⟩])]
    let page : StateFederal.Page :=
      { headingText := some "City Medical"
        addressText := some "10 Main Street, PERTH WA 6000"
        telText := none
        pageText := "" }
    let r := StateFederal.get_clinic_details [] "u" "6100" "Riverton" "Riverton"
      "2025-01-01" page
    r.postcode = "6000" ∧ r.suburb = "PERTH" ∧
    get_state_electorate tbl r.postcode r.suburb = some "Perth" ∧
    r.state_electorate = "Riverton" ∧
    some r.state_electorate ≠ get_state_electorate tbl r.postcode r.suburb := by
  decide

/-- C1 amended: of the two district axes only the federal one is
obtained from its resolver with the re-derived suburb and postcode; the
state electorate field always equals the search query's district
argument, the state resolver being bypassed entirely. -/
theorem c1_amended_axis_resolution (fed : FederalTable)
    (url search_postcode search_suburb state_elect now : String)
    (page : StateFederal.Page) :
    (StateFederal.get_clinic_details fed url search_postcode search_suburb
        state_elect now page).state_electorate = state_elect ∧
    (StateFederal.get_clinic_details fed url search_postcode search_suburb
        state_elect now page).federal_electorate
      = get_federal_electorate fed
          (StateFederal.get_clinic_details fed url search_postcode search_suburb
            state_elect now page).postcode
          (StateFederal.get_clinic_details fed url search_postcode search_suburb
            state_elect now page).suburb :=
  ⟨rfl, rfl⟩

/-- Concrete instantiation of `c1_amended_axis_resolution` at the
counterexample's inputs. -/
theorem c1_amended_axis_resolution_witness :
    (StateFederal.get_clinic_details [] "u" "6100" "Riverton" "Riverton"
        "2025-01-01"
        { headingText := some "City Medical"
          addressText := some "10 Main Street, PERTH WA 6000"
          telText := none
          pageText := "" }).state_electorate = "Riverton" :=
  (c1_amended_axis_resolution [] "u" "6100" "Riverton" "Riverton" "2025-01-01"
    _).1

/-- C8 as stated is false for the STATE_AND_FEDERAL builder: that
variant has no text-pattern fallback, so a page without a tel:-scheme
anchor gets phone "N/A" even though the page text contains a matching
phone-shaped substring. -/
theorem c8_counterexample :
    let page : StateFederal.Page :=
      { headingText := some "City Medical"
        addressText := none
        telText := none
        pageText := "call 08 9300 1234 today" }
    let r := StateFederal.get_clinic_details [] "u" "6000" "Perth" "Perth"
      "2025-01-01" page
    page.telText = none ∧
    findPhone page.pageText = some "08 9300 1234" ∧
    r.phone = "N/A" ∧ r.phone ≠ "08 9300 1234" := by
  decide

/-- C8 amended: the FIXED and BETTER_ADDRESSES builders set phone to
the first tel:-anchor text, else to the first phone-pattern match of
the page text (FIXED with the plain pattern, BETTER_ADDRESSES via
group 1 of the optionally Phone-labelled pattern), else to "N/A"; the
STATE_AND_FEDERAL builder omits the text-pattern fallback and uses
"N/A" whenever no tel: anchor exists. -/
theorem c8_amended_phone (fed : FederalTable)
    (url search_postcode search_suburb state_elect now : String) :
    (∀ page : Fixed.Page,
      (∀ tt, page.telText = some tt →
        (Fixed.get_clinic_details url search_postcode search_suburb
          state_elect now page).phone = tt) ∧
      (∀ m, page.telText = none → findPhone page.pageText = some m →
        (Fixed.get_clinic_details url search_postcode search_suburb
          state_elect now page).phone = m) ∧
      (page.telText = none → findPhone page.pageText = none →
        (Fixed.get_clinic_details url search_postcode search_suburb
          state_elect now page).phone = "N/A")) ∧
    (∀ page : BetterAddresses.Page,
      (∀ tt, page.telText = some tt →
        (BetterAddresses.get_clinic_details fed url search_postcode
          search_suburb state_elect now page).phone = tt) ∧
      (∀ m, page.telText = none → findPhoneB page.pageText = some m →
        (BetterAddresses.get_clinic_details fed url search_postcode
          search_suburb state_elect now page).phone = m) ∧
      (page.telText = none → findPhoneB page.pageText = none →
        (BetterAddresses.get_clinic_details fed url search_postcode
          search_suburb state_elect now page).phone = "N/A")) ∧
    (∀ page : StateFederal.Page,
      (∀ tt, page.telText = some tt →
        (StateFederal.get_clinic_details fed url search_postcode
          search_suburb state_elect now page).phone = tt) ∧
      (page.telText = none →
        (StateFederal.get_clinic_details fed url search_postcode
          search_suburb state_elect now page).phone = "N/A")) := by
  refine ⟨?_, ?_, ?_⟩
  · intro page
    refine ⟨?_, ?_, ?_⟩
    · intro tt htt
      unfold Fixed.get_clinic_details
      rw [htt]
    · intro m hnone hm
      unfold Fixed.get_clinic_details
      rw [hnone]
      dsimp only
      rw [hm]
    · intro hnone hm
      unfold Fixed.get_clinic_details
      rw [hnone]
      dsimp only
      rw [hm]
  · intro page
    refine ⟨?_, ?_, ?_⟩
    · intro tt htt
      unfold BetterAddresses.get_clinic_details
      rw [htt]
    · intro m hnone hm
      unfold BetterAddresses.get_clinic_details
      rw [hnone]
      dsimp only
      rw [hm]
    · intro hnone hm
      unfold BetterAddresses.get_clinic_details
      rw [hnone]
      dsimp only
      rw [hm]
  · intro page
    refine ⟨?_, ?_⟩
    · intro tt htt
      unfold StateFederal.get_clinic_details
      rw [htt]
    · intro hnone
      unfold StateFederal.get_clinic_details
      rw [hnone]

/-- Concrete instantiation of `c8_amended_phone`: the three fallback
stages of the FIXED and BETTER_ADDRESSES builders and the anchor-less
STATE_AND_FEDERAL case. -/
theorem c8_amended_phone_witness :
    (Fixed.get_clinic_details "u" "6000" "Perth" "Perth" "2025-01-01"
        { headingText := none, addressText := none, blockTexts := []
          telText := some "(08) 9200 4321", pageText := "" }).phone
      = "(08) 9200 4321" ∧
    (Fixed.get_clinic_details "u" "6000" "Perth" "Perth" "2025-01-01"
        { headingText := none, addressText := none, blockTexts := []
          telText := none, pageText := "call 08 9300 1234 today" }).phone
      = "08 9300 1234" ∧
    (Fixed.get_clinic_details "u" "6000" "Perth" "Perth" "2025-01-01"
        { headingText := none, addressText := none, blockTexts := []
          telText := none, pageText := "no digits at all" }).phone
      = "N/A" ∧
    (BetterAddresses.get_clinic_details [] "u" "6000" "Perth" "Perth"
        "2025-01-01"
        { headingText := none, addressTagText := none, blockMatch := none
          directionsMatch := none, ldAddresses := [], wholeTextMatches := []
          telText := some "(08) 9300 1234", pageText := "" }).phone
      = "(08) 9300 1234" ∧
    (BetterAddresses.get_clinic_details [] "u" "6000" "Perth" "Perth"
        "2025-01-01"
        { headingText := none, addressTagText := none, blockMatch := none
          directionsMatch := none, ldAddresses := [], wholeTextMatches := []
          telText := none, pageText := "Phone: 08 9300 1234" }).phone
      = "08 9300 1234" ∧
    (BetterAddresses.get_clinic_details [] "u" "6000" "Perth" "Perth"
        "2025-01-01"
        { headingText := none, addressTagText := none, blockMatch := none
          directionsMatch := none, ldAddresses := [], wholeTextMatches := []
          telText := none, pageText := "no digits at all" }).phone
      = "N/A" ∧
    (StateFederal.get_clinic_details [] "u" "6000" "Perth" "Perth"
        "2025-01-01"
        { headingText := none, addressText := none, telText := none
          pageText := "call 08 9300 1234 today" }).phone
      = "N/A" :=
  ⟨((c8_amended_phone [] "u" "6000" "Perth" "Perth" "2025-01-01").1 _).1
      "(08) 9200 4321" rfl,
   ((c8_amended_phone [] "u" "6000" "Perth" "Perth" "2025-01-01").1 _).2.1
      "08 9300 1234" rfl (by decide),
   ((c8_amended_phone [] "u" "6000" "Perth" "Perth" "2025-01-01").1 _).2.2
      rfl (by decide),
   ((c8_amended_phone [] "u" "6000" "Perth" "Perth" "2025-01-01").2.1 _).1
      "(08) 9300 1234" rfl,
   ((c8_amended_phone [] "u" "6000" "Perth" "Perth" "2025-01-01").2.1 _).2.1
      "08 9300 1234" rfl (by decide),
   ((c8_amended_phone [] "u" "6000" "Perth" "Perth" "2025-01-01").2.1 _).2.2
      rfl (by decide),
   ((c8_amended_phone [] "u" "6000" "Perth" "Perth" "2025-01-01").2.2 _).2 rfl⟩

theorem removeDuplicatesAux_subset (rs : List ClinicRecord) :
    ∀ seen c, c ∈ removeDuplicatesAux seen rs → c ∈ rs := by
  induction rs with
  | nil => intro seen c h; exact absurd h (by simp [removeDuplicatesAux])
  | cons a rest ih =>
    intro seen c h
    unfold removeDuplicatesAux at h
    by_cases hs : seen.contains a.url
    · rw [if_pos hs] at h
      exact List.mem_cons_of_mem a (ih seen c h)
    · rw [if_neg hs] at h
      rcases List.mem_cons.mp h with h1 | h2
      · exact h1 ▸ List.mem_cons_self a rest
      · exact List.mem_cons_of_mem a (ih (a.url :: seen) c h2)

theorem removeDuplicatesAux_not_seen (rs : List ClinicRecord) :
    ∀ seen c, c ∈ removeDuplicatesAux seen rs → seen.contains c.url = false := by
  induction rs with
  | nil => intro seen c h; exact absurd h (by simp [removeDuplicatesAux])
  | cons a rest ih =>
    intro seen c h
    unfold removeDuplicatesAux at h
    by_cases hs : seen.contains a.url
    · rw [if_pos hs] at h
      exact ih seen c h
    · rw [if_neg hs] at h
      rcases List.mem_cons.mp h with h1 | h2
      · rw [h1]
        exact Bool.not_eq_true _ ▸ (by simpa using hs)
      · have := ih (a.url :: seen) c h2
        simp only [List.contains_cons, Bool.or_eq_false_iff] at this
        exact this.2

theorem removeDuplicatesAux_nodup (rs : List ClinicRecord) :
    ∀ seen, ((removeDuplicatesAux seen rs).map (fun c => c.url)).Nodup := by
  induction rs with
  | nil => intro seen; simp [removeDuplicatesAux]
  | cons a rest ih =>
    intro seen
    unfold removeDuplicatesAux
    by_cases hs : seen.contains a.url
    · rw [if_pos hs]
      exact ih seen
    · rw [if_neg hs]
      simp only [List.map_cons, List.nodup_cons]
      refine ⟨?_, ih (a.url :: seen)⟩
      intro hmem
      rcases List.mem_map.mp hmem with ⟨c, hc, hcu⟩
      have hns := removeDuplicatesAux_not_seen rest (a.url :: seen) c hc
      simp only [List.contains_cons, Bool.or_eq_false_iff] at hns
      have h1 := hns.1
      rw [hcu] at h1
      simp at h1

theorem removeDuplicatesAux_length (rs : List ClinicRecord) :
    ∀ seen : List String,
      (removeDuplicatesAux seen rs).length
        = ((rs.map (fun c => c.url)).toFinset \ seen.toFinset).card := by
  induction rs with
  | nil => intro seen; simp [removeDuplicatesAux]
  | cons a rest ih =>
    intro seen
    unfold removeDuplicatesAux
    by_cases hs : seen.contains a.url
    · rw [if_pos hs]
      have ha : a.url ∈ seen.toFinset := by
        simpa using List.mem_of_elem_eq_true hs
      rw [ih seen]
      simp only [List.map_cons, List.toFinset_cons]
      rw [Finset.insert_sdiff_of_mem _ ha]
    · rw [if_neg hs]
      have ha : a.url ∉ seen.toFinset := by
        simp only [List.mem_toFinset]
        intro hmem
        exact hs (List.elem_eq_true_of_mem hmem)
      simp only [List.length_cons, List.map_cons, List.toFinset_cons]
      rw [ih (a.url :: seen)]
      rw [Finset.insert_sdiff_of_not_mem _ ha]
      simp only [List.toFinset_cons]
      rw [Finset.sdiff_insert]
      by_cases hd : a.url ∈ (rest.map (fun c => c.url)).toFinset \ seen.toFinset
      · rw [Finset.card_erase_add_one hd, Finset.insert_eq_self.mpr hd]
      · rw [Finset.erase_eq_of_not_mem hd, Finset.card_insert_of_not_mem hd]

set_option maxRecDepth 4000 in
theorem removeDuplicatesAux_find? (rs : List ClinicRecord) :
    ∀ seen u, seen.contains u = false →
      (removeDuplicatesAux seen rs).find? (fun c => c.url == u)
        = rs.find? (fun c => c.url == u) := by
  induction rs with
  | nil => intro seen u _; rfl
  | cons a rest ih =>
    intro seen u hu
    unfold removeDuplicatesAux
    by_cases hs : seen.contains a.url
    · rw [if_pos hs]
      have hne : (a.url == u) = false := by
        by_contra hcon
        simp only [Bool.not_eq_false, beq_iff_eq] at hcon
        rw [hcon] at hs
        rw [hs] at hu
        exact absurd hu (by simp)
      rw [ih seen u hu]
      simp [List.find?_cons, hne]
    · rw [if_neg hs]
      by_cases he : (a.url == u) = true
      · simp only [List.find?_cons, he]
      · have hne2 : (a.url == u) = false := by simpa using he
        simp only [List.find?_cons, hne2]
        refine ih (a.url :: seen) u ?_
        simp only [List.contains_cons, Bool.or_eq_false_iff]
        have hne3 : (u == a.url) = false := by
          simp only [beq_eq_false_iff_ne] at hne2 ⊢
          exact fun h => hne2 h.symm
        exact ⟨hne3, hu⟩

/-- C3: duplicate removal keeps, for each distinct url, exactly the
first record encountered with that url: the output records are among
the inputs, their urls are pairwise distinct, the output size is the
number of distinct urls in the input, and for every url the record kept
is the first input record carrying it. -/
theorem c3_dedup_first_seen (results : List ClinicRecord) :
    ((remove_duplicates results).map (fun c => c.url)).Nodup ∧
    (remove_duplicates results).length
      = ((results.map (fun c => c.url)).dedup).length ∧
    (∀ u, (remove_duplicates results).find? (fun c => c.url == u)
        = results.find? (fun c => c.url == u)) ∧
    (∀ c ∈ remove_duplicates results, c ∈ results) := by
  refine ⟨removeDuplicatesAux_nodup results [], ?_, ?_, ?_⟩
  · rw [remove_duplicates, removeDuplicatesAux_length results []]
    simp [List.card_toFinset]
  · intro u
    exact removeDuplicatesAux_find? results [] u rfl
  · intro c hc
    exact removeDuplicatesAux_subset results [] c hc

/-- Concrete instantiation of `c3_dedup_first_seen`: two records share
a url but differ in phone; the first is kept, the second discarded, and
the total drops by the duplicate count. -/
theorem c3_dedup_first_seen_witness :
    (remove_duplicates
        [sampleRec "Perth" true "u1", sampleRec "Perth" false "u1",
         sampleRec "Perth" false "u2"]).find? (fun c => c.url == "u1")
      = some (sampleRec "Perth" true "u1") ∧
    (remove_duplicates
        [sampleRec "Perth" true "u1", sampleRec "Perth" false "u1",
         sampleRec "Perth" false "u2"]).length = 2 := by
  have h := c3_dedup_first_seen
    [sampleRec "Perth" true "u1", sampleRec "Perth" false "u1",
     sampleRec "Perth" false "u2"]
  refine ⟨?_, ?_⟩
  · rw [h.2.2.1 "u1"]
    decide
  · rw [h.2.1]
    decide

theorem state_stats_perm (l1 l2 : List ClinicRecord) (h : l1.Perm l2)
    (d : String) : state_stats l1 d = state_stats l2 d := by
  unfold state_stats
  have hf : (l1.filter (fun c => c.state_electorate == d)).Perm
      (l2.filter (fun c => c.state_electorate == d)) := h.filter _
  have hlen := hf.length_eq
  have hblen := (hf.filter (fun c => c.is_bulk_billed)).length_eq
  cases hA : l1.filter (fun c => c.state_electorate == d) with
  | nil =>
    rw [hA] at hf
    have hB : l2.filter (fun c => c.state_electorate == d) = [] :=
      hf.symm.eq_nil
    rw [hB]
  | cons x xs =>
    rw [hA] at hf hlen hblen
    cases hB : l2.filter (fun c => c.state_electorate == d) with
    | nil =>
      rw [hB] at hf
      exact absurd hf.eq_nil (by simp)
    | cons y ys =>
      rw [hB] at hlen hblen
      dsimp only
      rw [hlen, hblen]

theorem federal_stats_perm (l1 l2 : List ClinicRecord) (h : l1.Perm l2)
    (d : String) : federal_stats l1 d = federal_stats l2 d := by
  unfold federal_stats
  have hf : (l1.filter (fun c => c.federal_electorate == d)).Perm
      (l2.filter (fun c => c.federal_electorate == d)) := h.filter _
  have hlen := hf.length_eq
  have hblen := (hf.filter (fun c => c.is_bulk_billed)).length_eq
  cases hA : l1.filter (fun c => c.federal_electorate == d) with
  | nil =>
    rw [hA] at hf
    have hB : l2.filter (fun c => c.federal_electorate == d) = [] :=
      hf.symm.eq_nil
    rw [hB]
  | cons x xs =>
    rw [hA] at hf hlen hblen
    cases hB : l2.filter (fun c => c.federal_electorate == d) with
    | nil =>
      rw [hB] at hf
      exact absurd hf.eq_nil (by simp)
    | cons y ys =>
      rw [hB] at hlen hblen
      dsimp only
      rw [hlen, hblen]

theorem run_summary_perm (l1 l2 : List ClinicRecord) (h : l1.Perm l2) :
    run_summary l1 = run_summary l2 := by
  unfold run_summary
  have h1 := h.length_eq
  have h2 := (h.filter (fun c => c.is_bulk_billed)).length_eq
  have h3 := ((h.map (fun c => c.state_electorate)).dedup).length_eq
  have h4 := ((h.map (fun c => c.federal_electorate)).dedup).length_eq
  rw [h1, h2, h3, h4]

/-- C9: over record lists with pairwise distinct urls, the aggregation
step is invariant under permutation: every per-district statistics
entry of either axis and the global summary are the same for any visit
order. -/
theorem c9_aggregation_order_independent (l1 l2 : List ClinicRecord)
    (hperm : l1.Perm l2) (_hnodup : (l1.map (fun c => c.url)).Nodup) :
    (∀ d, state_stats l1 d = state_stats l2 d) ∧
    (∀ d, federal_stats l1 d = federal_stats l2 d) ∧
    run_summary l1 = run_summary l2 :=
  ⟨fun d => state_stats_perm l1 l2 hperm d,
   fun d => federal_stats_perm l1 l2 hperm d,
   run_summary_perm l1 l2 hperm⟩

/-- Concrete instantiation of `c9_aggregation_order_independent` on a
two-record list and its reversal. -/
theorem c9_aggregation_order_independent_witness :
    state_stats [sampleRec "Perth" true "u1", sampleRec "Fremantle" false "u2"]
        "Perth"
      = state_stats [sampleRec "Fremantle" false "u2", sampleRec "Perth" true "u1"]
        "Perth" ∧
    run_summary [sampleRec "Perth" true "u1", sampleRec "Fremantle" false "u2"]
      = run_summary [sampleRec "Fremantle" false "u2", sampleRec "Perth" true "u1"] := by
  have h := c9_aggregation_order_independent
    [sampleRec "Perth" true "u1", sampleRec "Fremantle" false "u2"]
    [sampleRec "Fremantle" false "u2", sampleRec "Perth" true "u1"]
    (by decide) (by decide)
  exact ⟨h.1 "Perth", h.2.2⟩
